import Mathlib

/-!
Shallow embedding of `groups/arm/ggd/heartbeat.py` (aws-greengrass-mini-fulfillment).

The script discovers a Greengrass core, connects an MQTT client to the first
discovered core, and publishes JSON heartbeat records in a loop until a
KeyboardInterrupt.  External SDK calls (discovery, connect, publish, clock,
random, hostname) are modelled by an environment record; the run is embedded
as a function producing the list of observable events, or a Python error
(`KeyError` from the config lookup, `IndexError` from `core_list[0]`).
-/

namespace Heartbeat

/-! ### Python `datetime` model

`datetime.datetime` values are the 7-tuple of calendar fields.  Comparison in
Python is lexicographic on this tuple. -/

structure DateTime where
  year : Nat
  month : Nat
  day : Nat
  hour : Nat
  minute : Nat
  second : Nat
  microsecond : Nat
  deriving DecidableEq, Repr

/-- The invariants `datetime.datetime` enforces on construction
(`MINYEAR = 1`, `MAXYEAR = 9999`; the day bound is relaxed to 31,
a superset of Python's month-dependent bound, which is all the
renderings below need). -/
def DateTime.Valid (d : DateTime) : Prop :=
  1 ≤ d.year ∧ d.year ≤ 9999 ∧ 1 ≤ d.month ∧ d.month ≤ 12 ∧
  1 ≤ d.day ∧ d.day ≤ 31 ∧ d.hour < 24 ∧ d.minute < 60 ∧
  d.second < 60 ∧ d.microsecond < 1000000

instance (d : DateTime) : Decidable d.Valid := by
  unfold DateTime.Valid; infer_instance

/-- Python comparison key: datetimes compare lexicographically on their
field tuple. -/
def DateTime.key (d : DateTime) : List Nat :=
  [d.year, d.month, d.day, d.hour, d.minute, d.second, d.microsecond]

/-- Lexicographic `≤` on equal-length `Nat` tuples, as Python tuple
comparison computes it. -/
def keyLe : List Nat → List Nat → Bool
  | [], _ => true
  | _ :: _, [] => false
  | a :: as, b :: bs => decide (a < b) || (decide (a = b) && keyLe as bs)

/-- Python's `d1 <= d2` on datetimes. -/
def DateTime.le (a b : DateTime) : Prop := keyLe a.key b.key = true

instance (a b : DateTime) : Decidable (a.le b) := by
  unfold DateTime.le; infer_instance

/-! Decimal digit rendering.  Python's `isoformat` zero-pads the year to 4
digits and month/day/hour/minute/second to 2; microseconds to 6. -/

def digitChar (n : Nat) : Char := Char.ofNat (48 + n)

def pad2 (n : Nat) : List Char := [digitChar (n / 10), digitChar (n % 10)]

def pad4 (n : Nat) : List Char :=
  [digitChar (n / 1000), digitChar (n / 100 % 10),
   digitChar (n / 10 % 10), digitChar (n % 10)]

def pad6 (n : Nat) : List Char :=
  [digitChar (n / 100000), digitChar (n / 10000 % 10),
   digitChar (n / 1000 % 10), digitChar (n / 100 % 10),
   digitChar (n / 10 % 10), digitChar (n % 10)]

/-- `datetime.isoformat()`: `YYYY-MM-DDTHH:MM:SS`, with `.ffffff` appended
only when the microsecond field is nonzero. -/
def isoformatChars (d : DateTime) : List Char :=
  pad4 d.year ++ '-' :: pad2 d.month ++ '-' :: pad2 d.day ++
  'T' :: pad2 d.hour ++ ':' :: pad2 d.minute ++ ':' :: pad2 d.second ++
  (if d.microsecond = 0 then [] else '.' :: pad6 d.microsecond)

def isoformat (d : DateTime) : String := String.mk (isoformatChars d)

/-! ### ISO-8601 parsing (for the timestamp-validity claim) -/

def digitVal (c : Char) : Option Nat :=
  if '0' ≤ c ∧ c ≤ '9' then some (c.toNat - 48) else none

def read2 : List Char → Option (Nat × List Char)
  | a :: b :: rest => do
    let x ← digitVal a
    let y ← digitVal b
    pure (x * 10 + y, rest)
  | _ => none

def read4 : List Char → Option (Nat × List Char)
  | a :: b :: c :: d :: rest => do
    let x ← digitVal a
    let y ← digitVal b
    let z ← digitVal c
    let w ← digitVal d
    pure (x * 1000 + y * 100 + z * 10 + w, rest)
  | _ => none

def read6 : List Char → Option (Nat × List Char)
  | a :: b :: c :: d :: e :: f :: rest => do
    let u ← digitVal a
    let v ← digitVal b
    let w ← digitVal c
    let x ← digitVal d
    let y ← digitVal e
    let z ← digitVal f
    pure (u * 100000 + v * 10000 + w * 1000 + x * 100 + y * 10 + z, rest)
  | _ => none

def expectCh (c : Char) : List Char → Option (List Char)
  | x :: rest => if x = c then some rest else none
  | [] => none

/-- Parse an optional `.ffffff` suffix and finish the datetime. -/
def parseFrac (y mo da h mi se : Nat) : List Char → Option DateTime
  | [] => some ⟨y, mo, da, h, mi, se, 0⟩
  | '.' :: r =>
    match read6 r with
    | some (us, []) => some ⟨y, mo, da, h, mi, se, us⟩
    | _ => none
  | _ => none

/-- Parse the exact shape `isoformat` produces:
`YYYY-MM-DDTHH:MM:SS` optionally followed by `.ffffff`. -/
def parseIso (s : String) : Option DateTime :=
  match read4 s.data with
  | some (y, '-' :: r1) =>
    match read2 r1 with
    | some (mo, '-' :: r2) =>
      match read2 r2 with
      | some (da, 'T' :: r3) =>
        match read2 r3 with
        | some (h, ':' :: r4) =>
          match read2 r4 with
          | some (mi, ':' :: r5) =>
            match read2 r5 with
            | some (se, r6) => parseFrac y mo da h mi se r6
            | none => none
          | _ => none
        | _ => none
      | _ => none
    | _ => none
  | _ => none

/-! ### `datetime` subtraction and `str(timedelta)` -/

/-- `_days_before_year` of CPython's datetime module: days from year 1
up to (excluding) year `y`, with proleptic-Gregorian leap rules. -/
def daysBeforeYear (y : Nat) : Nat :=
  let p := y - 1
  p * 365 + p / 4 - p / 100 + p / 400

def isLeap (y : Nat) : Bool :=
  y % 4 == 0 && (y % 100 != 0 || y % 400 == 0)

/-- Cumulative day counts before each month (index = month, 1-based),
non-leap year. -/
def daysBeforeMonth (y m : Nat) : Nat :=
  [0, 0, 31, 59, 90, 120, 151, 181, 212, 243, 273, 304, 334].getD m 0 +
  (if 2 < m ∧ isLeap y then 1 else 0)

/-- Proleptic-Gregorian ordinal of the date (day 1 = 0001-01-01),
as `datetime.toordinal()`. -/
def DateTime.toOrdinal (d : DateTime) : Nat :=
  daysBeforeYear d.year + daysBeforeMonth d.year d.month + d.day

/-- Microseconds since the epoch of ordinal 0; datetime subtraction in
Python equals subtraction of these absolutes. -/
def DateTime.toMicros (d : DateTime) : Int :=
  ((d.toOrdinal * 86400 + d.hour * 3600 + d.minute * 60 + d.second) *
    1000000 + d.microsecond : Nat)

/-- `str(timedelta)` on a timedelta of `us` total microseconds.  Python
normalizes with floor division (days may be negative, the remainder is in
`[0, 86400*10^6)`), prints `D day(s), ` when days ≠ 0, hours unpadded,
minutes/seconds 2-padded, and `.ffffff` only when nonzero. -/
def timedeltaStrChars (us : Int) : List Char :=
  let days : Int := Int.fdiv us 86400000000
  let rem : Nat := (Int.fmod us 86400000000).toNat
  let secs : Nat := rem / 1000000
  let micro : Nat := rem % 1000000
  let h : Nat := secs / 3600
  let mi : Nat := secs % 3600 / 60
  let se : Nat := secs % 60
  (if days = 0 then []
   else (toString days).data ++
     (if days = 1 ∨ days = -1 then " day, " else " days, ").data) ++
  (Nat.repr h).data ++ ':' :: pad2 mi ++ ':' :: pad2 se ++
  (if micro = 0 then [] else '.' :: pad6 micro)

def timedeltaStr (us : Int) : String := String.mk (timedeltaStrChars us)

/-- `str(now - start)` for two datetimes. -/
def dtSubStr (now start : DateTime) : String :=
  timedeltaStr (now.toMicros - start.toMicros)

/-! ### `json.dumps` (defaults: `ensure_ascii=True`, separators `", "`,
`": "`, keys in dict insertion order) -/

def hexDigitChar (n : Nat) : Char :=
  if n < 10 then digitChar n else Char.ofNat (87 + n)

def hex4 (n : Nat) : List Char :=
  [hexDigitChar (n / 4096 % 16), hexDigitChar (n / 256 % 16),
   hexDigitChar (n / 16 % 16), hexDigitChar (n % 16)]

/-- Escaping of one character in a JSON string, as `json.dumps` with
`ensure_ascii=True` performs it (non-ASCII via `\uXXXX`, astral via a
surrogate pair). -/
def jsonEscapeChar (c : Char) : List Char :=
  if c = '"' then ['\\', '"']
  else if c = '\\' then ['\\', '\\']
  else if c = '\n' then ['\\', 'n']
  else if c = '\r' then ['\\', 'r']
  else if c = '\t' then ['\\', 't']
  else if c = '\x08' then ['\\', 'b']
  else if c = '\x0c' then ['\\', 'f']
  else if c.toNat < 0x20 then '\\' :: 'u' :: hex4 c.toNat
  else if c.toNat < 0x7f then [c]
  else if c.toNat < 0x10000 then '\\' :: 'u' :: hex4 c.toNat
  else
    '\\' :: 'u' :: hex4 (0xd800 + (c.toNat - 0x10000) / 0x400) ++
    '\\' :: 'u' :: hex4 (0xdc00 + (c.toNat - 0x10000) % 0x400)

def jsonString (s : String) : List Char :=
  '"' :: s.data.flatMap jsonEscapeChar ++ ['"']

/-! ### The heartbeat message -/

structure HeartbeatSample where
  sensor_id : String
  ts : String
  duration : String
  deriving DecidableEq, Repr

structure HeartbeatMsg where
  version : String
  ggd_id : String
  hostname : String
  data : List HeartbeatSample
  deriving DecidableEq, Repr

/-- The dict literal built each loop iteration (heartbeat.py lines 88-100). -/
def mkMsg (heartbeat_name hostname : String) (start now : DateTime) :
    HeartbeatMsg :=
  { version := "2017-07-05"
    ggd_id := heartbeat_name
    hostname := hostname
    data := [{ sensor_id := "heartbeat"
               ts := isoformat now
               duration := dtSubStr now start }] }

def dumpsSample (s : HeartbeatSample) : List Char :=
  '\x7b' :: (jsonString "sensor_id" ++ ':' :: ' ' :: jsonString s.sensor_id ++
  ',' :: ' ' :: jsonString "ts" ++ ':' :: ' ' :: jsonString s.ts ++
  ',' :: ' ' :: jsonString "duration" ++ ':' :: ' ' :: jsonString s.duration) ++
  ['\x7d']

def dumpsSampleList (l : List HeartbeatSample) : List Char :=
  '[' :: List.intercalate [',', ' '] (l.map dumpsSample) ++ [']']

/-- `json.dumps(msg)` for the heartbeat dict: keys serialize in insertion
order with the default separators. -/
def dumpsMsg (m : HeartbeatMsg) : String :=
  String.mk
    ('\x7b' :: (jsonString "version" ++ ':' :: ' ' :: jsonString m.version ++
     ',' :: ' ' :: jsonString "ggd_id" ++ ':' :: ' ' :: jsonString m.ggd_id ++
     ',' :: ' ' :: jsonString "hostname" ++ ':' :: ' ' :: jsonString m.hostname ++
     ',' :: ' ' :: jsonString "data" ++ ':' :: ' ' ::
       dumpsSampleList m.data) ++ ['\x7d'])

/-! ### The run as an event trace -/

inductive QueuePolicy where
  | dropNewest
  | dropOldest
  deriving DecidableEq, Repr

/-- One observable action of the script, in program order. -/
inductive Event where
  /-- `dip.configureEndpoint(iot_endpoint)` -/
  | configureEndpoint (endpoint : String)
  /-- `dip.configureCredentials(caPath, certPath, keyPath)` -/
  | configureDipCredentials (ca cert key : String)
  /-- `dip.configureTimeout(10)` -/
  | configureTimeout (secs : Nat)
  /-- `log.info("Discovery using CA: ...")` -/
  | logDiscoveryUsing (ca cert key : String)
  /-- the `ggc_discovery(heartbeat_name, dip, group_ca_dir, retry_count=10)` call -/
  | discoveryCall (name group_ca_dir : String) (retry_count : Nat)
  /-- `log.error("Discovery failed for: ... endpoint: ...")` -/
  | logDiscoveryFailure (name endpoint : String)
  /-- `log.info("Discovery success, core_list[0]: ...")` -/
  | logDiscoverySuccess (core : String)
  /-- `AWSIoTMQTTClient(heartbeat_name)` -/
  | newMQTTClient (clientId : String)
  /-- `mqttc.configureCredentials(group_ca, private_key, certificate)` -/
  | configureMqttCredentials (groupCA key cert : String)
  /-- `mqttc.configureOfflinePublishQueueing(10, DROP_OLDEST)` -/
  | configureOfflineQueue (capacity : Nat) (policy : QueuePolicy)
  /-- the `mqtt_connect(mqtt_client=mqttc, core_info=core_info)` call -/
  | connectAttempt (core : String)
  /-- `print("[hb] publishing heartbeat msg: ...")` -/
  | printMsg (m : HeartbeatMsg)
  /-- `mqttc.publish(topic, json.dumps(msg), 0)` -/
  | publish (topic payload : String) (qos : Nat)
  /-- a `time.sleep(d)` call -/
  | sleep (d : ℚ)
  /-- `log.info("[hb] KeyboardInterrupt ... exiting heartbeat")` -/
  | logKeyboardInterrupt
  /-- `mqttc.disconnect()` -/
  | disconnect
  /-- `print("[hb] could not connect successfully to: ... via mqtt.")` -/
  | logConnectFailure (core : String)
  deriving DecidableEq, Repr

/-- Which discovered core tokens an event mentions. -/
def Event.coresUsed : Event → List String
  | .logDiscoverySuccess c => [c]
  | .connectAttempt c => [c]
  | .logConnectFailure c => [c]
  | _ => []

/-- The `devices.<name>` entry of the group config file. -/
structure DeviceEntry where
  thing_name : String
  deriving DecidableEq, Repr

/-- The parts of `GroupConfigFile` the script reads:
`cfg['devices'][device_name]['thing_name']` and
`cfg['misc']['iot_endpoint']`. -/
structure GroupConfig where
  devices : List (String × DeviceEntry)
  iot_endpoint : String
  deriving Repr

/-- The return of `ggc_discovery`. -/
structure DiscoveryOutput where
  discovered : Bool
  group_list : List String
  core_list : List String
  group_ca : String
  ca_list : List String
  deriving Repr

/-- Everything the outside world feeds one run: config file contents,
the discovery result, the `mqtt_connect` outcome, the hostname, the
successive `datetime.datetime.now()` readings (reading 0 is `start`,
reading `i+1` is iteration `i`'s `now`), the successive `random.random()`
draws, and the iteration count at whose top the KeyboardInterrupt is
delivered. -/
structure Env where
  readConfig : String → GroupConfig
  discovery : DiscoveryOutput
  connect_success : Bool
  hostname : String
  clock : Nat → DateTime
  rand : Nat → ℚ
  iters : Nat

inductive PyError where
  /-- `cfg['devices'][device_name]` with an absent key -/
  | keyError
  /-- `core_list[0]` on an empty list -/
  | indexError
  deriving DecidableEq, Repr

/-- Events of loop iteration `i` (heartbeat.py lines 87-103): read the
clock, build the dict, print it, publish its JSON on `topic` at QoS 0,
sleep `random.random() * 10`. -/
def iterEvents (heartbeat_name hostname topic : String)
    (start now : DateTime) (r : ℚ) : List Event :=
  let msg := mkMsg heartbeat_name hostname start now
  [.printMsg msg, .publish topic (dumpsMsg msg) 0, .sleep (r * 10)]

/-- The publishing loop: `iters` complete iterations, the interrupt
arriving at the top of iteration `iters`. -/
def loopEvents (heartbeat_name hostname topic : String) (env : Env) :
    List Event :=
  (List.range env.iters).flatMap fun i =>
    iterEvents heartbeat_name hostname topic (env.clock 0)
      (env.clock (i + 1)) (env.rand i)

/-- Events up to and including the discovery call (heartbeat.py
lines 54-66). -/
def discoveryPrelude (heartbeat_name iot_endpoint root_ca certificate
    private_key group_ca_dir : String) : List Event :=
  [.configureEndpoint iot_endpoint,
   .configureDipCredentials root_ca certificate private_key,
   .configureTimeout 10,
   .logDiscoveryUsing root_ca certificate private_key,
   .discoveryCall heartbeat_name group_ca_dir 10]

/-- Client construction and connect attempt on core `core0`
(heartbeat.py lines 74-82). -/
def connectPrelude (heartbeat_name group_ca private_key certificate
    core0 : String) : List Event :=
  [.logDiscoverySuccess core0,
   .newMQTTClient heartbeat_name,
   .configureMqttCredentials group_ca private_key certificate,
   .configureOfflineQueue 10 .dropOldest,
   .connectAttempt core0]

/-- The embedding of `heartbeat(device_name, config_file, root_ca,
certificate, private_key, group_ca_dir, topic)`: the list of observable
events of the run, or the uncaught Python error. -/
def heartbeat (device_name config_file root_ca certificate private_key
    group_ca_dir topic : String) (env : Env) : Except PyError (List Event) :=
  let cfg := env.readConfig config_file
  match (cfg.devices.lookup device_name : Option DeviceEntry) with
  | none => .error .keyError
  | some entry =>
    let heartbeat_name := entry.thing_name
    let iot_endpoint := cfg.iot_endpoint
    let pre := discoveryPrelude heartbeat_name iot_endpoint root_ca
      certificate private_key group_ca_dir
    let d := env.discovery
    if d.discovered = false then
      .ok (pre ++ [.logDiscoveryFailure heartbeat_name iot_endpoint])
    else
      match d.core_list with
      | [] => .error .indexError
      | core0 :: _ =>
        let pre2 := pre ++ connectPrelude heartbeat_name d.group_ca
          private_key certificate core0
        if env.connect_success then
          .ok (pre2 ++
            loopEvents heartbeat_name env.hostname topic env ++
            [.logKeyboardInterrupt, .disconnect, .sleep 2])
        else
          .ok (pre2 ++ [.logConnectFailure core0])

/-- The parsed command-line arguments of `__main__`, including the
`--frequency` option (declared with default 3). -/
structure Args where
  device_name : String
  config_file : String
  root_ca : String
  certificate : String
  private_key : String
  group_ca_dir : String
  topic : String
  frequency : Nat

/-- The `__main__` block: it calls `heartbeat` with every argument except
`frequency`, which is parsed but never passed. -/
def mainRun (args : Args) (env : Env) : Except PyError (List Event) :=
  heartbeat args.device_name args.config_file args.root_ca
    args.certificate args.private_key args.group_ca_dir args.topic env

/-- Extract the payloads of the `publish` calls of a trace, in order. -/
def publishPayloads (tr : List Event) : List String :=
  tr.filterMap fun e =>
    match e with
    | .publish _ p _ => some p
    | _ => none

/-! Concrete inputs used to instantiate the theorems below. -/

def sampleConfig : GroupConfig where
  devices := [("hb1", { thing_name := "greengrass-hb1" })]
  iot_endpoint := "abc.iot.example.com"

def sampleEnv (disc : Bool) (cores : List String) (conn : Bool)
    (n : Nat) : Env where
  readConfig := fun _ => sampleConfig
  discovery :=
    { discovered := disc
      group_list := ["g1"]
      core_list := cores
      group_ca := "gc"
      ca_list := [] }
  connect_success := conn
  hostname := "host1"
  clock := fun _ =>
    { year := 2024, month := 1, day := 1, hour := 0, minute := 0,
      second := 3, microsecond := 0 }
  rand := fun _ => 0
  iters := n

/-! ### Round-trip of `isoformat` through the ISO-8601 parser -/

theorem digitVal_digitChar (d : Nat) (h : d < 10) :
    digitVal (digitChar d) = some d := by
  interval_cases d <;> decide

theorem read2_pad2 (n : Nat) (h : n < 100) (rest : List Char) :
    read2 (pad2 n ++ rest) = some (n, rest) := by
  have h1 : n / 10 < 10 := by omega
  have h2 : n % 10 < 10 := by omega
  simp [pad2, read2, digitVal_digitChar _ h1, digitVal_digitChar _ h2]
  omega

theorem read4_pad4 (n : Nat) (h : n < 10000) (rest : List Char) :
    read4 (pad4 n ++ rest) = some (n, rest) := by
  have h1 : n / 1000 < 10 := by omega
  have h2 : n / 100 % 10 < 10 := by omega
  have h3 : n / 10 % 10 < 10 := by omega
  have h4 : n % 10 < 10 := by omega
  simp [pad4, read4, digitVal_digitChar _ h1, digitVal_digitChar _ h2,
    digitVal_digitChar _ h3, digitVal_digitChar _ h4]
  omega

theorem read6_pad6 (n : Nat) (h : n < 1000000) (rest : List Char) :
    read6 (pad6 n ++ rest) = some (n, rest) := by
  have h1 : n / 100000 < 10 := by omega
  have h2 : n / 10000 % 10 < 10 := by omega
  have h3 : n / 1000 % 10 < 10 := by omega
  have h4 : n / 100 % 10 < 10 := by omega
  have h5 : n / 10 % 10 < 10 := by omega
  have h6 : n % 10 < 10 := by omega
  simp [pad6, read6, digitVal_digitChar _ h1, digitVal_digitChar _ h2,
    digitVal_digitChar _ h3, digitVal_digitChar _ h4,
    digitVal_digitChar _ h5, digitVal_digitChar _ h6]
  omega

theorem expectCh_cons (c : Char) (rest : List Char) :
    expectCh c (c :: rest) = some rest := by
  simp [expectCh]

theorem read2_pad2_nil (n : Nat) (h : n < 100) :
    read2 (pad2 n) = some (n, []) := by
  simpa using read2_pad2 n h []

theorem read6_pad6_nil (n : Nat) (h : n < 1000000) :
    read6 (pad6 n) = some (n, []) := by
  simpa using read6_pad6 n h []

/-- Parsing inverts rendering on every valid datetime: the timestamps the
loop emits are well-formed ISO-8601 and denote exactly the clock reading. -/
theorem parseIso_isoformat (d : DateTime) (h : d.Valid) :
    parseIso (isoformat d) = some d := by
  cases d with
  | mk y mo da ho mi se us =>
    simp only [DateTime.Valid] at h
    obtain ⟨hy1, hy2, hm1, hm2, hd1, hd2, hh, hmi, hs, hus⟩ := h
    by_cases h0 : us = 0
    · subst h0
      simp only [parseIso, isoformat, isoformatChars, if_pos,
        List.append_nil, List.append_assoc, List.cons_append, List.nil_append]
      simp only [read4_pad4 y (by omega : y < 10000),
        read2_pad2 mo (by omega : mo < 100),
        read2_pad2 da (by omega : da < 100),
        read2_pad2 ho (by omega : ho < 100),
        read2_pad2 mi (by omega : mi < 100),
        read2_pad2_nil se (by omega : se < 100)]
      rfl
    · simp only [parseIso, isoformat, isoformatChars, if_neg h0,
        List.append_nil, List.append_assoc, List.cons_append, List.nil_append]
      simp only [read4_pad4 y (by omega : y < 10000),
        read2_pad2 mo (by omega : mo < 100),
        read2_pad2 da (by omega : da < 100),
        read2_pad2 ho (by omega : ho < 100),
        read2_pad2 mi (by omega : mi < 100),
        read2_pad2 se (by omega : se < 100)]
      simp only [parseFrac, read6_pad6_nil us (by omega : us < 1000000)]

/-! ### Structure of the run traces -/

theorem mem_iterEvents {e : Event} {na ho tp : String} {st no : DateTime}
    {r : ℚ} (h : e ∈ iterEvents na ho tp st no r) :
    e = .printMsg (mkMsg na ho st no) ∨
    e = .publish tp (dumpsMsg (mkMsg na ho st no)) 0 ∨
    e = .sleep (r * 10) := by
  simpa [iterEvents] using h

theorem mem_loopEvents {e : Event} {na ho tp : String} {env : Env}
    (h : e ∈ loopEvents na ho tp env) :
    ∃ i, i < env.iters ∧
      e ∈ iterEvents na ho tp (env.clock 0) (env.clock (i + 1)) (env.rand i) := by
  simp only [loopEvents, List.mem_flatMap, List.mem_range] at h
  exact h

theorem coresUsed_loopEvents {e : Event} {na ho tp : String} {env : Env}
    (h : e ∈ loopEvents na ho tp env) : e.coresUsed = [] := by
  obtain ⟨i, _, hm⟩ := mem_loopEvents h
  rcases mem_iterEvents hm with h1 | h1 | h1 <;> subst h1 <;> rfl

theorem disconnect_not_mem_loopEvents {na ho tp : String} {env : Env} :
    Event.disconnect ∉ loopEvents na ho tp env := by
  intro h
  obtain ⟨i, _, hm⟩ := mem_loopEvents h
  rcases mem_iterEvents hm with h1 | h1 | h1 <;> simp at h1

theorem publish_mem_loopEvents {t p : String} {q : Nat}
    {na ho tp : String} {env : Env}
    (h : Event.publish t p q ∈ loopEvents na ho tp env) :
    t = tp ∧ q = 0 := by
  obtain ⟨i, _, hm⟩ := mem_loopEvents h
  rcases mem_iterEvents hm with h1 | h1 | h1 <;> simp_all

theorem sleep_mem_loopEvents {d : ℚ} {na ho tp : String} {env : Env}
    (h : Event.sleep d ∈ loopEvents na ho tp env) :
    ∃ i, i < env.iters ∧ d = env.rand i * 10 := by
  obtain ⟨i, hi, hm⟩ := mem_loopEvents h
  rcases mem_iterEvents hm with h1 | h1 | h1 <;> simp_all
  exact ⟨i, hi, rfl⟩

theorem publishPayloads_append (l1 l2 : List Event) :
    publishPayloads (l1 ++ l2) = publishPayloads l1 ++ publishPayloads l2 := by
  simp [publishPayloads]

theorem publishPayloads_loopEvents (na ho tp : String) (env : Env) :
    publishPayloads (loopEvents na ho tp env) =
      (List.range env.iters).map fun i =>
        dumpsMsg (mkMsg na ho (env.clock 0) (env.clock (i + 1))) := by
  unfold loopEvents
  induction (List.range env.iters) with
  | nil => rfl
  | cons a l ih =>
    simp only [List.flatMap_cons, List.map_cons, publishPayloads_append, ih]
    rfl

theorem coresUsed_discoveryPrelude {e : Event} {a b c d f g : String}
    (h : e ∈ discoveryPrelude a b c d f g) : e.coresUsed = [] := by
  fin_cases h <;> rfl

theorem coresUsed_connectPrelude {e : Event} {na gc pk ce core0 : String}
    (h : e ∈ connectPrelude na gc pk ce core0) :
    ∀ x ∈ e.coresUsed, x = core0 := by
  fin_cases h <;> simp [Event.coresUsed]

/-- On a successful run the whole trace in one equation. -/
theorem heartbeat_run_success
    (dn cf rc ce pk gd tp : String) (env : Env) (entry : DeviceEntry)
    (core0 : String) (rest : List String)
    (hcfg : (env.readConfig cf).devices.lookup dn = some entry)
    (hd : env.discovery.discovered = true)
    (hc : env.discovery.core_list = core0 :: rest)
    (hs : env.connect_success = true) :
    heartbeat dn cf rc ce pk gd tp env = .ok
      (discoveryPrelude entry.thing_name (env.readConfig cf).iot_endpoint
        rc ce pk gd ++
      connectPrelude entry.thing_name env.discovery.group_ca pk ce core0 ++
      loopEvents entry.thing_name env.hostname tp env ++
      [.logKeyboardInterrupt, .disconnect, .sleep 2]) := by
  simp [heartbeat, hcfg, hd, hc, hs]

/-- On discovery failure the whole trace in one equation. -/
theorem heartbeat_run_discovery_failure
    (dn cf rc ce pk gd tp : String) (env : Env) (entry : DeviceEntry)
    (hcfg : (env.readConfig cf).devices.lookup dn = some entry)
    (hd : env.discovery.discovered = false) :
    heartbeat dn cf rc ce pk gd tp env = .ok
      (discoveryPrelude entry.thing_name (env.readConfig cf).iot_endpoint
        rc ce pk gd ++
      [.logDiscoveryFailure entry.thing_name
        (env.readConfig cf).iot_endpoint]) := by
  simp [heartbeat, hcfg, hd]

/-- On connect failure the whole trace in one equation. -/
theorem heartbeat_run_connect_failure
    (dn cf rc ce pk gd tp : String) (env : Env) (entry : DeviceEntry)
    (core0 : String) (rest : List String)
    (hcfg : (env.readConfig cf).devices.lookup dn = some entry)
    (hd : env.discovery.discovered = true)
    (hc : env.discovery.core_list = core0 :: rest)
    (hs : env.connect_success = false) :
    heartbeat dn cf rc ce pk gd tp env = .ok
      (discoveryPrelude entry.thing_name (env.readConfig cf).iot_endpoint
        rc ce pk gd ++
      connectPrelude entry.thing_name env.discovery.group_ca pk ce core0 ++
      [.logConnectFailure core0]) := by
  simp [heartbeat, hcfg, hd, hc, hs]


/-! ### The claims -/

/-- C1: if discovery returns `discovered = false`, no MQTT client is ever
constructed and no connect is ever attempted; the run logs the identity and
endpoint and terminates without publishing. -/
theorem C1_no_connect_without_discovery
    (dn cf rc ce pk gd tp : String) (env : Env) (entry : DeviceEntry)
    (hcfg : (env.readConfig cf).devices.lookup dn = some entry)
    (hd : env.discovery.discovered = false) :
    ∃ tr, heartbeat dn cf rc ce pk gd tp env = .ok tr ∧
      Event.logDiscoveryFailure entry.thing_name
        (env.readConfig cf).iot_endpoint ∈ tr ∧
      (∀ i, Event.newMQTTClient i ∉ tr) ∧
      (∀ c, Event.connectAttempt c ∉ tr) ∧
      (∀ t p q, Event.publish t p q ∉ tr) := by
  refine ⟨_, heartbeat_run_discovery_failure dn cf rc ce pk gd tp env entry
    hcfg hd, ?_, ?_, ?_, ?_⟩ <;> simp [discoveryPrelude]

/-- C1 witness: a concrete failed discovery. -/
theorem C1_no_connect_without_discovery_witness :
    ∃ tr, heartbeat "hb1" "cfg.json" "root.ca" "cert.pem" "key.pem" "gca"
      "/heart/beat" (sampleEnv false [] false 0) = .ok tr ∧
      Event.logDiscoveryFailure "greengrass-hb1" "abc.iot.example.com" ∈ tr ∧
      (∀ i, Event.newMQTTClient i ∉ tr) ∧
      (∀ c, Event.connectAttempt c ∉ tr) ∧
      (∀ t p q, Event.publish t p q ∉ tr) :=
  C1_no_connect_without_discovery "hb1" "cfg.json" "root.ca" "cert.pem"
    "key.pem" "gca" "/heart/beat" (sampleEnv false [] false 0)
    ⟨"greengrass-hb1"⟩ rfl rfl

/-- C2: on successful discovery the connect targets exactly `core_list[0]`,
and no event of the run mentions any other discovered core. -/
theorem C2_first_candidate_selection
    (dn cf rc ce pk gd tp : String) (env : Env) (entry : DeviceEntry)
    (core0 : String) (rest : List String)
    (hcfg : (env.readConfig cf).devices.lookup dn = some entry)
    (hd : env.discovery.discovered = true)
    (hc : env.discovery.core_list = core0 :: rest) :
    ∀ tr, heartbeat dn cf rc ce pk gd tp env = .ok tr →
      Event.connectAttempt core0 ∈ tr ∧
      (∀ e ∈ tr, ∀ c ∈ e.coresUsed, c = core0) ∧
      (∀ c, Event.connectAttempt c ∈ tr → c = core0) := by
  intro tr htr
  have main : Event.connectAttempt core0 ∈ tr ∧
      ∀ e ∈ tr, ∀ c ∈ e.coresUsed, c = core0 := by
    cases hs : env.connect_success
    · rw [heartbeat_run_connect_failure dn cf rc ce pk gd tp env entry core0
        rest hcfg hd hc hs] at htr
      injection htr with h
      subst h
      refine ⟨by simp [discoveryPrelude, connectPrelude], ?_⟩
      intro e he c hcc
      rcases List.mem_append.1 he with hAB | hT
      · rcases List.mem_append.1 hAB with hA | hB
        · rw [coresUsed_discoveryPrelude hA] at hcc
          exact absurd hcc (List.not_mem_nil c)
        · exact coresUsed_connectPrelude hB c hcc
      · fin_cases hT
        simpa [Event.coresUsed] using hcc
    · rw [heartbeat_run_success dn cf rc ce pk gd tp env entry core0 rest
        hcfg hd hc hs] at htr
      injection htr with h
      subst h
      refine ⟨by simp [discoveryPrelude, connectPrelude], ?_⟩
      intro e he c hcc
      rcases List.mem_append.1 he with hABL | hT
      · rcases List.mem_append.1 hABL with hAB | hL
        · rcases List.mem_append.1 hAB with hA | hB
          · rw [coresUsed_discoveryPrelude hA] at hcc
            exact absurd hcc (List.not_mem_nil c)
          · exact coresUsed_connectPrelude hB c hcc
        · rw [coresUsed_loopEvents hL] at hcc
          exact absurd hcc (List.not_mem_nil c)
      · fin_cases hT <;> simp [Event.coresUsed] at hcc
  exact ⟨main.1, main.2, fun c h =>
    main.2 _ h c (by simp [Event.coresUsed])⟩

/-- C2 witness: a concrete two-core discovery; the run connects to the
first core. -/
theorem C2_first_candidate_selection_witness :
    Event.connectAttempt "CoreA" ∈
      (heartbeat "hb1" "cfg.json" "root.ca" "cert.pem" "key.pem" "gca"
        "/heart/beat"
        (sampleEnv true ["CoreA", "CoreB"] true 1)).toOption.getD [] :=
  (C2_first_candidate_selection "hb1" "cfg.json" "root.ca" "cert.pem"
    "key.pem" "gca" "/heart/beat" (sampleEnv true ["CoreA", "CoreB"] true 1)
    ⟨"greengrass-hb1"⟩ "CoreA" ["CoreB"] rfl rfl rfl _ rfl).1

/-- C3: every payload the loop publishes is the JSON serialization of a
fresh record with version `"2017-07-05"`, the configured thing name, the
hostname recorded once before the loop, and a single data sample with
sensor id `"heartbeat"`, the ISO-8601 timestamp of the iteration's clock
reading and the textual elapsed time since the start reference. -/
theorem C3_heartbeat_record_shape
    (dn cf rc ce pk gd tp : String) (env : Env) (entry : DeviceEntry)
    (core0 : String) (rest : List String)
    (hcfg : (env.readConfig cf).devices.lookup dn = some entry)
    (hd : env.discovery.discovered = true)
    (hc : env.discovery.core_list = core0 :: rest)
    (hs : env.connect_success = true) :
    ∀ tr, heartbeat dn cf rc ce pk gd tp env = .ok tr →
      publishPayloads tr = (List.range env.iters).map fun i =>
        dumpsMsg
          { version := "2017-07-05"
            ggd_id := entry.thing_name
            hostname := env.hostname
            data := [{ sensor_id := "heartbeat"
                       ts := isoformat (env.clock (i + 1))
                       duration := dtSubStr (env.clock (i + 1))
                         (env.clock 0) }] } := by
  intro tr htr
  rw [heartbeat_run_success dn cf rc ce pk gd tp env entry core0 rest
    hcfg hd hc hs] at htr
  injection htr with h
  subst h
  simp only [publishPayloads_append, publishPayloads_loopEvents]
  simp [publishPayloads, discoveryPrelude, connectPrelude, mkMsg]

/-- C3 witness: one full iteration on a concrete environment. -/
theorem C3_heartbeat_record_shape_witness :
    publishPayloads ((heartbeat "hb1" "cfg.json" "root.ca" "cert.pem"
        "key.pem" "gca" "/heart/beat"
        (sampleEnv true ["CoreA", "CoreB"] true 1)).toOption.getD []) =
      (List.range (sampleEnv true ["CoreA", "CoreB"] true 1).iters).map
        fun i =>
        dumpsMsg
          { version := "2017-07-05"
            ggd_id := (DeviceEntry.mk "greengrass-hb1").thing_name
            hostname := (sampleEnv true ["CoreA", "CoreB"] true 1).hostname
            data := [{ sensor_id := "heartbeat"
                       ts := isoformat
                         ((sampleEnv true ["CoreA", "CoreB"] true 1).clock
                           (i + 1))
                       duration := dtSubStr
                         ((sampleEnv true ["CoreA", "CoreB"] true 1).clock
                           (i + 1))
                         ((sampleEnv true ["CoreA", "CoreB"] true 1).clock
                           0) }] } :=
  C3_heartbeat_record_shape "hb1" "cfg.json" "root.ca" "cert.pem" "key.pem"
    "gca" "/heart/beat" (sampleEnv true ["CoreA", "CoreB"] true 1)
    ⟨"greengrass-hb1"⟩ "CoreA" ["CoreB"] rfl rfl rfl rfl _ rfl

/-- C4: with a non-decreasing valid clock, the `ts` of every published
record parses as ISO-8601, and the parsed timestamps are monotonically
non-decreasing across publishes. -/
theorem C4_monotonic_timestamps
    (dn cf rc ce pk gd tp : String) (env : Env) (entry : DeviceEntry)
    (core0 : String) (rest : List String)
    (hcfg : (env.readConfig cf).devices.lookup dn = some entry)
    (hd : env.discovery.discovered = true)
    (hc : env.discovery.core_list = core0 :: rest)
    (hs : env.connect_success = true)
    (hv : ∀ i, (env.clock i).Valid)
    (hm : ∀ i j, i ≤ j → (env.clock i).le (env.clock j)) :
    ∀ tr, heartbeat dn cf rc ce pk gd tp env = .ok tr →
      ∀ i j, i < j → j < env.iters →
        ∃ si sj : HeartbeatSample,
          (publishPayloads tr)[i]? = some (dumpsMsg
            { version := "2017-07-05", ggd_id := entry.thing_name,
              hostname := env.hostname, data := [si] }) ∧
          (publishPayloads tr)[j]? = some (dumpsMsg
            { version := "2017-07-05", ggd_id := entry.thing_name,
              hostname := env.hostname, data := [sj] }) ∧
          si.sensor_id = "heartbeat" ∧ sj.sensor_id = "heartbeat" ∧
          ∃ di dj, parseIso si.ts = some di ∧ parseIso sj.ts = some dj ∧
            di.le dj := by
  intro tr htr i j hij hj
  rw [heartbeat_run_success dn cf rc ce pk gd tp env entry core0 rest
    hcfg hd hc hs] at htr
  injection htr with h
  subst h
  have hpl : publishPayloads
      (discoveryPrelude entry.thing_name (env.readConfig cf).iot_endpoint
        rc ce pk gd ++
      connectPrelude entry.thing_name env.discovery.group_ca pk ce core0 ++
      loopEvents entry.thing_name env.hostname tp env ++
      [.logKeyboardInterrupt, .disconnect, .sleep 2]) =
      (List.range env.iters).map fun k =>
        dumpsMsg (mkMsg entry.thing_name env.hostname (env.clock 0)
          (env.clock (k + 1))) := by
    simp only [publishPayloads_append, publishPayloads_loopEvents]
    simp [publishPayloads, discoveryPrelude, connectPrelude]
  refine ⟨{ sensor_id := "heartbeat",
            ts := isoformat (env.clock (i + 1)),
            duration := dtSubStr (env.clock (i + 1)) (env.clock 0) },
          { sensor_id := "heartbeat",
            ts := isoformat (env.clock (j + 1)),
            duration := dtSubStr (env.clock (j + 1)) (env.clock 0) },
          ?_, ?_, rfl, rfl,
          env.clock (i + 1), env.clock (j + 1),
          parseIso_isoformat _ (hv (i + 1)),
          parseIso_isoformat _ (hv (j + 1)),
          hm (i + 1) (j + 1) (by omega)⟩
  · rw [hpl]
    simp [List.getElem?_map, List.getElem?_range, Nat.lt_trans hij hj, mkMsg]
  · rw [hpl]
    simp [List.getElem?_map, List.getElem?_range, hj, mkMsg]

/-- C4 witness: two iterations on a concrete constant clock. -/
theorem C4_monotonic_timestamps_witness :
    ∃ tr, heartbeat "hb1" "cfg.json" "root.ca" "cert.pem" "key.pem" "gca"
      "/heart/beat" (sampleEnv true ["CoreA", "CoreB"] true 2) = .ok tr ∧
      ∃ si sj : HeartbeatSample,
        (publishPayloads tr)[0]? = some (dumpsMsg
          { version := "2017-07-05", ggd_id := "greengrass-hb1",
            hostname := "host1", data := [si] }) ∧
        (publishPayloads tr)[1]? = some (dumpsMsg
          { version := "2017-07-05", ggd_id := "greengrass-hb1",
            hostname := "host1", data := [sj] }) ∧
        si.sensor_id = "heartbeat" ∧ sj.sensor_id = "heartbeat" ∧
        ∃ di dj, parseIso si.ts = some di ∧ parseIso sj.ts = some dj ∧
          di.le dj :=
  ⟨_, rfl,
    C4_monotonic_timestamps "hb1" "cfg.json" "root.ca" "cert.pem" "key.pem"
      "gca" "/heart/beat" (sampleEnv true ["CoreA", "CoreB"] true 2)
      ⟨"greengrass-hb1"⟩ "CoreA" ["CoreB"] rfl rfl rfl rfl
      (fun _ => show DateTime.Valid
        ⟨2024, 1, 1, 0, 0, 3, 0⟩ by decide)
      (fun _ _ _ => rfl) _ rfl 0 1 (by decide) (by decide)⟩

/-- C5: once the interrupt is observed, the remaining events are exactly
one disconnect followed by the fixed 2-unit grace sleep — no further
publish. -/
theorem C5_clean_shutdown
    (dn cf rc ce pk gd tp : String) (env : Env) (entry : DeviceEntry)
    (core0 : String) (rest : List String)
    (hcfg : (env.readConfig cf).devices.lookup dn = some entry)
    (hd : env.discovery.discovered = true)
    (hc : env.discovery.core_list = core0 :: rest)
    (hs : env.connect_success = true) :
    ∀ tr, heartbeat dn cf rc ce pk gd tp env = .ok tr →
      ∃ pre, tr = pre ++ [.logKeyboardInterrupt, .disconnect, .sleep 2] ∧
        Event.disconnect ∉ pre ∧
        ∀ t p q, Event.publish t p q ∉
          ([.logKeyboardInterrupt, .disconnect, .sleep 2] : List Event) := by
  intro tr htr
  rw [heartbeat_run_success dn cf rc ce pk gd tp env entry core0 rest
    hcfg hd hc hs] at htr
  injection htr with h
  subst h
  refine ⟨_, rfl, ?_, by simp⟩
  intro hmem
  rcases List.mem_append.1 hmem with hAB | hL
  · rcases List.mem_append.1 hAB with hA | hB
    · simp [discoveryPrelude] at hA
    · simp [connectPrelude] at hB
  · exact disconnect_not_mem_loopEvents hL

/-- C5 witness: a concrete interrupted run. -/
theorem C5_clean_shutdown_witness :
    ∃ pre, ((heartbeat "hb1" "cfg.json" "root.ca" "cert.pem" "key.pem"
        "gca" "/heart/beat"
        (sampleEnv true ["CoreA", "CoreB"] true 1)).toOption.getD []) =
      pre ++ [.logKeyboardInterrupt, .disconnect, .sleep 2] ∧
      Event.disconnect ∉ pre ∧
      ∀ t p q, Event.publish t p q ∉
        ([.logKeyboardInterrupt, .disconnect, .sleep 2] : List Event) :=
  C5_clean_shutdown "hb1" "cfg.json" "root.ca" "cert.pem" "key.pem" "gca"
    "/heart/beat" (sampleEnv true ["CoreA", "CoreB"] true 1)
    ⟨"greengrass-hb1"⟩ "CoreA" ["CoreB"] rfl rfl rfl rfl _ rfl

/-- C6: assuming each `random.random()` draw lies in `[0, 1)`, every
inter-publish sleep of the publishing loop lies in `[0, 10)`. -/
theorem C6_bounded_random_cadence (na ho tp : String) (env : Env)
    (hr : ∀ i, 0 ≤ env.rand i ∧ env.rand i < 1) :
    ∀ d, Event.sleep d ∈ loopEvents na ho tp env → 0 ≤ d ∧ d < 10 := by
  intro d hd
  obtain ⟨i, _, hdi⟩ := sleep_mem_loopEvents hd
  subst hdi
  obtain ⟨h0, h1⟩ := hr i
  constructor
  · exact mul_nonneg h0 (by norm_num)
  · linarith

/-- C6 witness: the single sleep of a one-iteration loop. -/
theorem C6_bounded_random_cadence_witness :
    0 ≤ (0 : ℚ) ∧ (0 : ℚ) < 10 :=
  C6_bounded_random_cadence "greengrass-hb1" "host1" "/heart/beat"
    (sampleEnv true ["CoreA"] true 1)
    (fun _ => show 0 ≤ (0 : ℚ) ∧ (0 : ℚ) < 1 by norm_num) 0
    (by norm_num [loopEvents, iterEvents, sampleEnv,
      show List.range 1 = [0] from rfl])

/-- C7: two runs differing only in the `--frequency` option produce
identical traces (the flag is parsed but never passed to `heartbeat`). -/
theorem C7_frequency_unused (a1 a2 : Args) (env : Env)
    (h1 : a1.device_name = a2.device_name)
    (h2 : a1.config_file = a2.config_file)
    (h3 : a1.root_ca = a2.root_ca)
    (h4 : a1.certificate = a2.certificate)
    (h5 : a1.private_key = a2.private_key)
    (h6 : a1.group_ca_dir = a2.group_ca_dir)
    (h7 : a1.topic = a2.topic) :
    mainRun a1 env = mainRun a2 env := by
  simp [mainRun, h1, h2, h3, h4, h5, h6, h7]

/-- C7 witness: frequency 3 versus frequency 100. -/
theorem C7_frequency_unused_witness :
    mainRun ⟨"hb1", "cfg.json", "root.ca", "cert.pem", "key.pem", "gca",
        "/heart/beat", 3⟩ (sampleEnv true ["CoreA"] true 1) =
    mainRun ⟨"hb1", "cfg.json", "root.ca", "cert.pem", "key.pem", "gca",
        "/heart/beat", 100⟩ (sampleEnv true ["CoreA"] true 1) :=
  C7_frequency_unused _ _ _ rfl rfl rfl rfl rfl rfl rfl

/-- C8: when the connect attempt fails, the run logs the attempted target
and returns without any publish and without entering the loop. -/
theorem C8_connect_failure_aborts
    (dn cf rc ce pk gd tp : String) (env : Env) (entry : DeviceEntry)
    (core0 : String) (rest : List String)
    (hcfg : (env.readConfig cf).devices.lookup dn = some entry)
    (hd : env.discovery.discovered = true)
    (hc : env.discovery.core_list = core0 :: rest)
    (hs : env.connect_success = false) :
    ∃ tr, heartbeat dn cf rc ce pk gd tp env = .ok tr ∧
      tr = discoveryPrelude entry.thing_name (env.readConfig cf).iot_endpoint
        rc ce pk gd ++
        connectPrelude entry.thing_name env.discovery.group_ca pk ce core0 ++
        [.logConnectFailure core0] ∧
      Event.logConnectFailure core0 ∈ tr ∧
      (∀ t p q, Event.publish t p q ∉ tr) ∧
      (∀ m, Event.printMsg m ∉ tr) := by
  refine ⟨_, heartbeat_run_connect_failure dn cf rc ce pk gd tp env entry
    core0 rest hcfg hd hc hs, rfl, ?_, ?_, ?_⟩ <;>
    simp [discoveryPrelude, connectPrelude]

/-- C8 witness: a concrete failed connect. -/
theorem C8_connect_failure_aborts_witness :
    ∃ tr, heartbeat "hb1" "cfg.json" "root.ca" "cert.pem" "key.pem" "gca"
      "/heart/beat" (sampleEnv true ["CoreA", "CoreB"] false 7) = .ok tr ∧
      tr = discoveryPrelude "greengrass-hb1" "abc.iot.example.com"
        "root.ca" "cert.pem" "key.pem" "gca" ++
        connectPrelude "greengrass-hb1" "gc" "key.pem" "cert.pem" "CoreA" ++
        [.logConnectFailure "CoreA"] ∧
      Event.logConnectFailure "CoreA" ∈ tr ∧
      (∀ t p q, Event.publish t p q ∉ tr) ∧
      (∀ m, Event.printMsg m ∉ tr) :=
  C8_connect_failure_aborts "hb1" "cfg.json" "root.ca" "cert.pem" "key.pem"
    "gca" "/heart/beat" (sampleEnv true ["CoreA", "CoreB"] false 7)
    ⟨"greengrass-hb1"⟩ "CoreA" ["CoreB"] rfl rfl rfl rfl

/-- C9: before the connect attempt the client is configured with an
offline-publish queue of capacity 10 and drop-oldest policy, and every
publish of the run uses QoS 0 on the caller-supplied topic. -/
theorem C9_queue_policy_and_qos
    (dn cf rc ce pk gd tp : String) (env : Env) (entry : DeviceEntry)
    (core0 : String) (rest : List String)
    (hcfg : (env.readConfig cf).devices.lookup dn = some entry)
    (hd : env.discovery.discovered = true)
    (hc : env.discovery.core_list = core0 :: rest) :
    ∀ tr, heartbeat dn cf rc ce pk gd tp env = .ok tr →
      (∃ pre post, tr = pre ++
        Event.configureOfflineQueue 10 QueuePolicy.dropOldest ::
        Event.connectAttempt core0 :: post) ∧
      (∀ t p q, Event.publish t p q ∈ tr → t = tp ∧ q = 0) := by
  intro tr htr
  cases hs : env.connect_success
  · rw [heartbeat_run_connect_failure dn cf rc ce pk gd tp env entry core0
      rest hcfg hd hc hs] at htr
    injection htr with h
    subst h
    constructor
    · exact ⟨discoveryPrelude entry.thing_name
        (env.readConfig cf).iot_endpoint rc ce pk gd ++
        [.logDiscoverySuccess core0, .newMQTTClient entry.thing_name,
         .configureMqttCredentials env.discovery.group_ca pk ce],
        [.logConnectFailure core0],
        by simp [discoveryPrelude, connectPrelude]⟩
    · intro t p q hmem
      simp [discoveryPrelude, connectPrelude] at hmem
  · rw [heartbeat_run_success dn cf rc ce pk gd tp env entry core0 rest
      hcfg hd hc hs] at htr
    injection htr with h
    subst h
    constructor
    · exact ⟨discoveryPrelude entry.thing_name
        (env.readConfig cf).iot_endpoint rc ce pk gd ++
        [.logDiscoverySuccess core0, .newMQTTClient entry.thing_name,
         .configureMqttCredentials env.discovery.group_ca pk ce],
        loopEvents entry.thing_name env.hostname tp env ++
        [.logKeyboardInterrupt, .disconnect, .sleep 2],
        by simp [discoveryPrelude, connectPrelude]⟩
    · intro t p q hmem
      rcases List.mem_append.1 hmem with hABL | hT
      · rcases List.mem_append.1 hABL with hAB | hL
        · rcases List.mem_append.1 hAB with hA | hB
          · simp [discoveryPrelude] at hA
          · simp [connectPrelude] at hB
        · exact publish_mem_loopEvents hL
      · simp at hT

/-- C9 witness: a concrete successful run. -/
theorem C9_queue_policy_and_qos_witness :
    (∃ pre post,
      ((heartbeat "hb1" "cfg.json" "root.ca" "cert.pem" "key.pem" "gca"
        "/heart/beat"
        (sampleEnv true ["CoreA", "CoreB"] true 1)).toOption.getD []) =
      pre ++ Event.configureOfflineQueue 10 QueuePolicy.dropOldest ::
        Event.connectAttempt "CoreA" :: post) ∧
    (∀ t p q, Event.publish t p q ∈
        ((heartbeat "hb1" "cfg.json" "root.ca" "cert.pem" "key.pem" "gca"
          "/heart/beat"
          (sampleEnv true ["CoreA", "CoreB"] true 1)).toOption.getD []) →
      t = "/heart/beat" ∧ q = 0) :=
  C9_queue_policy_and_qos "hb1" "cfg.json" "root.ca" "cert.pem" "key.pem"
    "gca" "/heart/beat" (sampleEnv true ["CoreA", "CoreB"] true 1)
    ⟨"greengrass-hb1"⟩ "CoreA" ["CoreB"] rfl rfl rfl _ rfl

/-- C10: with `discovered = true` and an empty `core_list`, the unguarded
`core_list[0]` access fails (IndexError) instead of being handled. -/
theorem C10_empty_core_list_fails
    (dn cf rc ce pk gd tp : String) (env : Env) (entry : DeviceEntry)
    (hcfg : (env.readConfig cf).devices.lookup dn = some entry)
    (hd : env.discovery.discovered = true)
    (hc : env.discovery.core_list = []) :
    heartbeat dn cf rc ce pk gd tp env = .error .indexError := by
  simp [heartbeat, hcfg, hd, hc]

/-- C10 witness: a concrete empty-core-list success report. -/
theorem C10_empty_core_list_fails_witness :
    heartbeat "hb1" "cfg.json" "root.ca" "cert.pem" "key.pem" "gca"
      "/heart/beat" (sampleEnv true [] true 1) = .error .indexError :=
  C10_empty_core_list_fails "hb1" "cfg.json" "root.ca" "cert.pem" "key.pem"
    "gca" "/heart/beat" (sampleEnv true [] true 1)
    ⟨"greengrass-hb1"⟩ rfl rfl rfl

end Heartbeat
